import Mathlib

/-!
Shallow embedding of the core logic of the Kuromi claw machine repository:
GameState (progression), ClawController (movement, grab sequence, drop and
emergency stop), PrizeGenerator (placement, overlap resolution, grab
candidate lookup) and the KuromiClawMachine game loop special conditions.

Conventions of the embedding:
* JS numbers are rationals; JS Date.now timestamps are rational milliseconds.
* Counters that the source only ever keeps as nonnegative integers
  (coins, streak, combo, totalPlays) are naturals, matching the source
  arithmetic (coins is decremented only behind a coins = 0 guard).
* DOM and sound calls are cosmetic and have no embedded effect.
* The uniform random draws of the source are explicit parameters in [0,1).
* setTimeout callbacks of the grab sequence are an explicit pending list of
  (absolute time, callback) pairs on the system state; firing a callback
  applies its state effect.
-/

namespace Kuromi

/-- Prize types configured in PrizeGenerator.prizeTypes (src/js/prize.js). -/
inductive PrizeType
  | kuromiPlush
  | yellowCoin
  | pointToken
  | purpleBall
  deriving DecidableEq

/-- Progression state of GameState (src/unnamed/part_002, constructor).
The prizes field is the collection of won prizes; the source stores
objects with type, data, timestamp and combo, of which the embedding keeps
the pair of type and the combo value at collection time. -/
structure GameState where
  coins : ℕ
  points : ℚ
  streak : ℕ
  totalPlays : ℕ
  prizes : List (PrizeType × ℕ)
  isPlaying : Bool
  clawPosition : ℚ × ℚ
  gameStarted : Bool
  combo : ℕ
  lastWinTime : ℚ
  deriving DecidableEq

/-- settings.comboTimeout (ms). -/
def comboTimeout : ℚ := 5000

/-- settings.maxStreak. -/
def maxStreak : ℕ := 10

/-- The GameState constructor values (coins 5, everything else zeroed,
claw position 50,50). -/
def initialGameState : GameState :=
  { coins := 5, points := 0, streak := 0, totalPlays := 0, prizes := []
    isPlaying := false, clawPosition := (50, 50), gameStarted := false
    combo := 0, lastWinTime := 0 }

/-- GameState.addCoins (display animation omitted). -/
def addCoins (amount : ℕ) (s : GameState) : GameState :=
  { s with coins := s.coins + amount }

/-- GameState.addPoints. -/
def addPoints (amount : ℚ) (s : GameState) : GameState :=
  { s with points := s.points + amount }

/-- GameState.spendCoin: fails with no state change when no coins are left
(the source guard is coins <= 0, which on a natural is coins = 0);
otherwise decrements coins and increments totalPlays. -/
def spendCoin (s : GameState) : Bool × GameState :=
  if s.coins = 0 then (false, s)
  else (true, { s with coins := s.coins - 1, totalPlays := s.totalPlays + 1 })

/-- GameState.processPrizeReward. draw is the uniform draw in [0,1) used by
Math.random for the reward roll. settings.pointValues: kuromiPlush 50..100,
yellowCoin 1 coin plus 20 base points, pointToken 10..25. The source switch
has no case for purpleBall, so that type yields no reward. The combo and
streak multipliers read the already-updated combo and streak. -/
def processPrizeReward (t : PrizeType) (draw : ℚ) (s : GameState) : GameState :=
  match t with
  | .kuromiPlush =>
      let baseReward : ℤ := ⌊draw * (100 - 50 + 1)⌋ + 50
      addPoints ((baseReward : ℚ) * (1 + ((s.combo : ℚ) - 1) * (1/10))) s
  | .yellowCoin =>
      addPoints 20 (addCoins 1 s)
  | .pointToken =>
      let baseReward : ℤ := ⌊draw * (25 - 10 + 1)⌋ + 10
      addPoints ((baseReward : ℚ) * (1 + ((s.streak : ℚ) - 1) * (1/20))) s
  | .purpleBall => s

/-- GameState.collectPrize at time now: combo increments when now is within
comboTimeout of lastWinTime, else restarts at 1; lastWinTime becomes now;
streak increments capped at maxStreak; the prize is appended to the
collection; then the reward is processed. -/
def collectPrize (now : ℚ) (t : PrizeType) (draw : ℚ) (s : GameState) : GameState :=
  let combo2 := if now - s.lastWinTime < comboTimeout then s.combo + 1 else 1
  let streak2 := min (s.streak + 1) maxStreak
  let s1 := { s with combo := combo2, streak := streak2, lastWinTime := now,
                     prizes := s.prizes ++ [(t, combo2)] }
  processPrizeReward t draw s1

/-- GameState.missedGrab: zeroes streak and combo, then with probability 0.3
(draw below 3/10) awards 5 consolation points. -/
def missedGrab (draw : ℚ) (s : GameState) : GameState :=
  let s1 := { s with streak := 0, combo := 0 }
  if draw < 3/10 then addPoints 5 s1 else s1

/-- GameState.updateClawPosition: clamps the mirrored claw position to 10..90
on both axes. -/
def updateClawPosition (x y : ℚ) (s : GameState) : GameState :=
  { s with clawPosition := (max 10 (min 90 x), max 10 (min 90 y)) }

/-- GameState.setPlaying: sets isPlaying; gameStarted latches to true the
first time playing is set. -/
def setPlaying (b : Bool) (s : GameState) : GameState :=
  { s with isPlaying := b, gameStarted := s.gameStarted || b }

/-- GameState.canPlay: coins remain and no grab in flight. -/
def canPlay (s : GameState) : Bool :=
  decide (0 < s.coins) && !s.isPlaying

/-- settings.successRates: kuromiPlush 0.65, yellowCoin 0.80,
pointToken 0.75. purpleBall has no entry: the JS property lookup yields
undefined, embedded as none. -/
def successRates : PrizeType → Option ℚ
  | .kuromiPlush => some (13/20)
  | .yellowCoin => some (4/5)
  | .pointToken => some (3/4)
  | .purpleBall => none

/-- GameState.getSuccessRate: clamp(base + streakBonus - lowCoinPenalty)
to [0.3, 0.9], with streakBonus = min(streak * 0.02, 0.1) and a 0.05
penalty when coins < 2. When the base rate lookup is undefined (purpleBall)
every further JS arithmetic step is NaN, and NaN survives the clamp since
Math.min and Math.max propagate NaN; the embedding returns none there. -/
def getSuccessRate (t : PrizeType) (s : GameState) : Option ℚ :=
  match successRates t with
  | none => none
  | some baseRate =>
      let streakBonus : ℚ := min ((s.streak : ℚ) * (2/100)) (1/10)
      let lowCoinPenalty : ℚ := if s.coins < 2 then 5/100 else 0
      some (max (3/10) (min (9/10) (baseRate + streakBonus - lowCoinPenalty)))

/-- KuromiClawMachine.checkSpecialConditions, restricted to its only effect
on GameState: the coin auto-replenish branch (src/js/main.js lines 236-240).
The devil-mode and combo-effect branches touch only visuals and the claw
movement speed, never the progression state. -/
def checkSpecialConditions (s : GameState) : GameState :=
  if s.coins = 0 ∧ 3 ≤ s.streak then addCoins 2 s else s

/-- A progression event: the outcomes GameState is notified of.
win carries the Date.now timestamp and the reward draw;
miss carries the consolation draw. -/
inductive GEvent
  | win (now : ℚ) (t : PrizeType) (draw : ℚ)
  | miss (draw : ℚ)
  deriving DecidableEq

/-- Apply one progression event. -/
def stepEvent (s : GameState) : GEvent → GameState
  | .win now t draw => collectPrize now t draw s
  | .miss draw => missedGrab draw s

/-- Run a trace of progression events from a start state. A progression
state is reachable when it is runTrace initialGameState tr for some tr. -/
def runTrace (s : GameState) (tr : List GEvent) : GameState :=
  tr.foldl stepEvent s

/-- Movement directions of ClawController.move. -/
inductive Direction
  | left
  | right
  | forward
  | back
  deriving DecidableEq

/-- ClawController movement boundaries (percentages): minX. -/
def minX : ℚ := 15

/-- ClawController boundaries: maxX. -/
def maxX : ℚ := 85

/-- ClawController boundaries: minY. -/
def minY : ℚ := 15

/-- ClawController boundaries: maxY. -/
def maxY : ℚ := 75

/-- ClawController.moveStep (percentage per move). -/
def moveStep : ℚ := 8

/-- ClawController.homePosition. -/
def homePosition : ℚ × ℚ := (50, 50)

/-- Claw controller state: position, the isMoving and isGrabbing flags, and
the id of the currently held prize if any. -/
structure ClawState where
  position : ℚ × ℚ
  isMoving : Bool
  isGrabbing : Bool
  grabbedPrize : Option ℕ
  deriving DecidableEq

/-- ClawController.move (src/unnamed/part_000 lines 113-143): rejected while
moving or grabbing or when the player cannot play; otherwise steps the
position by moveStep along the one axis of the direction, clamped to the
boundaries with Math.max and Math.min; rejected with no change when the
clamped position equals the current one; on success isMoving is set, the
position updates and animateMovement mirrors it into the game state. The
isMoving flag is cleared later by a timer, which carries no other state
effect and is not part of this transition. -/
def move (d : Direction) (c : ClawState) (g : GameState) :
    Bool × ClawState × GameState :=
  if c.isMoving || c.isGrabbing || !canPlay g then (false, c, g)
  else
    let p := c.position
    let newPos : ℚ × ℚ :=
      match d with
      | .left => (max minX (p.1 - moveStep), p.2)
      | .right => (min maxX (p.1 + moveStep), p.2)
      | .forward => (p.1, min maxY (p.2 + moveStep))
      | .back => (p.1, max minY (p.2 - moveStep))
    if newPos = p then (false, c, g)
    else (true, { c with isMoving := true, position := newPos },
          updateClawPosition newPos.1 newPos.2 g)

/-- A prize entity of the field as far as the embedded logic reads it:
id, position, and the grabbed and collected flags. -/
structure FieldPrize where
  id : ℕ
  pos : ℚ × ℚ
  grabbed : Bool
  collected : Bool
  deriving DecidableEq

/-- Eligibility test of PrizeGenerator.getPrizeAtPosition for one prize:
not collected, not grabbed, and straight-line distance to (x, y) at most
tol. The source compares Math.sqrt(dx^2 + dy^2) <= tol; for a nonnegative
tol that comparison is equivalent to the squared form used here, which
keeps the embedding inside the rationals. -/
def eligibleAt (x y tol : ℚ) (p : FieldPrize) : Bool :=
  !p.collected && !p.grabbed &&
    decide ((p.pos.1 - x) ^ 2 + (p.pos.2 - y) ^ 2 ≤ tol ^ 2)

/-- PrizeGenerator.getPrizeAtPosition (src/js/prize.js lines 227-236):
Array.prototype.find over this.prizes, so the FIRST prize in insertion
order that passes the eligibility test, with default tolerance 15. -/
def getPrizeAtPosition (x y tol : ℚ) : List FieldPrize → Option FieldPrize
  | [] => none
  | p :: ps => if eligibleAt x y tol p then some p else getPrizeAtPosition x y tol ps

/-- The scheduled callbacks of ClawController.executeGrabSequence. The
attempt callback carries the grab resolution outcome: the resolver
(PrizeGenerator.attemptGrab) is not part of the sources, and the spec makes
the draw and candidate selection substitutable, so the outcome is injected
at scheduling time. -/
inductive Callback
  | attempt (outcome : Option ℕ)
  | raise
  | ret
  | complete
  deriving DecidableEq

/-- ClawController.grabSequenceTime (ms). -/
def grabSequenceTime : ℚ := 2500

/-- The four setTimeout registrations of
ClawController.executeGrabSequence (src/unnamed/part_000 lines 211-234),
as absolute-time entries relative to the call time t0: attempt at 40 percent
of the sequence time, raise at 60 percent, return at 80 percent, completion
at 100 percent. -/
def executeGrabSequence (t0 : ℚ) (outcome : Option ℕ) : List (ℚ × Callback) :=
  [(t0 + grabSequenceTime * (4/10), Callback.attempt outcome),
   (t0 + grabSequenceTime * (6/10), Callback.raise),
   (t0 + grabSequenceTime * (8/10), Callback.ret),
   (t0 + grabSequenceTime, Callback.complete)]

/-- The whole machine: claw, progression, prize field, and the pending
scheduled callbacks. -/
structure SysState where
  claw : ClawState
  game : GameState
  field : List FieldPrize
  pending : List (ℚ × Callback)
  deriving DecidableEq

/-- Modelled from the spec: PrizeGenerator.dropPrize is called by
ClawController.drop and ClawController.emergencyStop but its definition is
not among the sources. Spec 4.2: drop releases the held prize back into
play at the current position without awarding points; releasing clears the
transient grabbed flag and repositions the prize; collected is untouched.
Unknown ids are a no-op. -/
def dropPrize (pos : ℚ × ℚ) (pid : ℕ) (fs : List FieldPrize) : List FieldPrize :=
  fs.map fun p => if p.id = pid then { p with grabbed := false, pos := pos } else p

/-- Modelled from the spec: marking a prize grabbed when the resolver
succeeds (spec 3: grabbed is a transient flag used during an in-flight
grab). -/
def setGrabbed (pid : ℕ) (fs : List FieldPrize) : List FieldPrize :=
  fs.map fun p => if p.id = pid then { p with grabbed := true } else p

/-- ClawController.resetToHome: claw position back to home, mirrored into
the game state. -/
def resetToHome (s : SysState) : SysState :=
  { s with claw := { s.claw with position := homePosition },
           game := updateClawPosition homePosition.1 homePosition.2 s.game }

/-- ClawController.grab (src/unnamed/part_000 lines 190-208): rejected while
moving or grabbing or when the player cannot play; then rejected when a coin
cannot be spent; on acceptance the coin is spent, isGrabbing is set, the
game is marked playing and executeGrabSequence registers its callbacks.
t0 is the current time, outcome the injected resolution result. -/
def grab (t0 : ℚ) (outcome : Option ℕ) (s : SysState) : Bool × SysState :=
  if s.claw.isMoving || s.claw.isGrabbing || !canPlay s.game then (false, s)
  else
    match spendCoin s.game with
    | (false, g2) => (false, { s with game := g2 })
    | (true, g2) =>
        (true, { s with
          claw := { s.claw with isGrabbing := true },
          game := setPlaying true g2,
          pending := s.pending ++ executeGrabSequence t0 outcome })

/-- Effect of one fired grab-sequence callback, with draw the uniform draw
consumed by a consolation roll if one happens. attemptGrab stores the
resolved prize and marks it grabbed on success (src/unnamed/part_000 lines
252-266, resolution injected); animateClawUp only animates; returnClaw
moves to the drop zone when a prize is held, else home;
completeGrabSequence (lines 344-370) clears isGrabbing and playing, then
either just forgets the held prize (collection is finalized inside the
prize generator) or records a miss on the game state. -/
def fireCallback (draw : ℚ) (cb : Callback) (s : SysState) : SysState :=
  match cb with
  | .attempt none => s
  | .attempt (some pid) =>
      { s with claw := { s.claw with grabbedPrize := some pid },
               field := setGrabbed pid s.field }
  | .raise => s
  | .ret =>
      { s with claw := { s.claw with
          position := if s.claw.grabbedPrize.isSome then (50, 70) else homePosition } }
  | .complete =>
      let s1 := { s with claw := { s.claw with isGrabbing := false },
                         game := setPlaying false s.game }
      match s1.claw.grabbedPrize with
      | some _ => { s1 with claw := { s1.claw with grabbedPrize := none } }
      | none => { s1 with game := missedGrab draw s1.game }

/-- ClawController.drop (src/unnamed/part_000 lines 373-390): returns false
when not grabbing and holding nothing; otherwise, if a prize is held it is
dropped back into the field at the current position and forgotten; returns
true. The pending callbacks are untouched. -/
def drop (s : SysState) : Bool × SysState :=
  if s.claw.isGrabbing = false ∧ s.claw.grabbedPrize = none then (false, s)
  else
    match s.claw.grabbedPrize with
    | some pid =>
        (true, { s with claw := { s.claw with grabbedPrize := none },
                        field := dropPrize s.claw.position pid s.field })
    | none => (true, s)

/-- ClawController.emergencyStop (src/unnamed/part_000 lines 573-593):
clears isMoving and isGrabbing, marks the game not playing, drops a held
prize back to the field, resets the claw to home. No clearTimeout appears
anywhere in the controller, so the pending list is untouched. -/
def emergencyStop (s : SysState) : SysState :=
  let s1 := { s with claw := { s.claw with isMoving := false, isGrabbing := false },
                     game := setPlaying false s.game }
  let s2 :=
    match s1.claw.grabbedPrize with
    | some pid =>
        { s1 with claw := { s1.claw with grabbedPrize := none },
                  field := dropPrize s1.claw.position pid s1.field }
    | none => s1
  resetToHome s2

/-- A prize size (width and height in field-relative units),
from PrizeGenerator.prizeTypes. -/
structure Size where
  width : ℚ
  height : ℚ
  deriving DecidableEq

/-- A prize as the placement algorithm sees it: a size and a position. -/
structure PrizeBox where
  size : Size
  pos : ℚ × ℚ
  deriving DecidableEq

instance : Inhabited PrizeBox := ⟨⟨⟨0, 0⟩, (0, 0)⟩⟩

/-- PrizeGenerator.boundaries.right. -/
def fieldRight : ℚ := 100

/-- PrizeGenerator.boundaries.left. -/
def fieldLeft : ℚ := 0

/-- PrizeGenerator.boundaries.top. -/
def fieldTop : ℚ := 0

/-- PrizeGenerator.boundaries.bottom (space left for the drop zone). -/
def fieldBottom : ℚ := 85

/-- The margin constant of PrizeGenerator.getRandomPosition. -/
def prizeMargin : ℚ := 5

/-- PrizeGenerator.getRandomPosition (src/js/prize.js lines 93-100) with the
two Math.random draws r1 r2 in [0,1) explicit:
margin + r * (right - left - width/2 - margin*2) on x and
margin + r * (bottom - top - height/2 - margin*2) on y.
Note the source subtracts HALF the size, not the full size. -/
def getRandomPosition (size : Size) (r1 r2 : ℚ) : ℚ × ℚ :=
  (prizeMargin + r1 * (fieldRight - fieldLeft - size.width / 2 - prizeMargin * 2),
   prizeMargin + r2 * (fieldBottom - fieldTop - size.height / 2 - prizeMargin * 2))

/-- PrizeGenerator.checkOverlap (src/js/prize.js lines 126-134): two prizes
overlap when BOTH the x and the y center distances are below
(width1 + width2)/2 + buffer, with buffer 5. The source uses the widths on
both axes. -/
def checkOverlap (p q : PrizeBox) : Bool :=
  let minDistance := (p.size.width + q.size.width) / 2 + 5
  decide (|p.pos.1 - q.pos.1| < minDistance) &&
    decide (|p.pos.2 - q.pos.2| < minDistance)

/-- Re-randomize the position of a prize with the k-th pair of draws of the
random stream rnd. -/
def rerand (rnd : ℕ → ℚ × ℚ) (k : ℕ) (p : PrizeBox) : PrizeBox :=
  { p with pos := getRandomPosition p.size (rnd k).1 (rnd k).2 }

/-- The inner j loop of one resolveOverlaps pass for a fixed first index i:
scan indices j, j+1, ... while fuel lasts and j is in range; each pair that
overlaps re-randomizes the SECOND prize in place (the scan continues over
the updated list, as in the source) and sets the hasOverlap flag. Returns
the updated list, the next random index, and the hasOverlap flag
contribution of this row. -/
def scanRow (rnd : ℕ → ℚ × ℚ) (i : ℕ) :
    ℕ → ℕ → ℕ → List PrizeBox → List PrizeBox × ℕ × Bool
  | 0, _, k, ps => (ps, k, false)
  | fuel + 1, j, k, ps =>
    if j < ps.length then
      if checkOverlap (ps.getD i default) (ps.getD j default) then
        let ps2 := ps.set j (rerand rnd k (ps.getD j default))
        let r := scanRow rnd i fuel (j + 1) (k + 1) ps2
        (r.1, r.2.1, true)
      else
        scanRow rnd i fuel (j + 1) k ps
    else (ps, k, false)

/-- The outer i loop of one resolveOverlaps pass: for each i the row scan
starts at j = i + 1 with enough fuel for the rest of the list. The flag is
the disjunction of the row flags. -/
def scanAll (rnd : ℕ → ℚ × ℚ) :
    ℕ → ℕ → ℕ → List PrizeBox → List PrizeBox × ℕ × Bool
  | 0, _, k, ps => (ps, k, false)
  | fuel + 1, i, k, ps =>
    if i < ps.length then
      let r := scanRow rnd i ps.length (i + 1) k ps
      let r2 := scanAll rnd fuel (i + 1) r.2.1 r.1
      (r2.1, r2.2.1, r.2.2 || r2.2.2)
    else (ps, k, false)

/-- The while loop of PrizeGenerator.resolveOverlaps: run full passes while
the attempt budget lasts; stop as soon as a pass reports no overlap. The
Bool result is true when the budget was exhausted with the last pass still
reporting an overlap. -/
def resolveLoop (rnd : ℕ → ℚ × ℚ) :
    ℕ → ℕ → List PrizeBox → List PrizeBox × Bool
  | 0, _, ps => (ps, true)
  | attempts + 1, k, ps =>
    let r := scanAll rnd ps.length 0 k ps
    if r.2.2 then resolveLoop rnd attempts r.2.1 r.1 else (r.1, false)

/-- PrizeGenerator.resolveOverlaps (src/js/prize.js lines 103-123):
maxAttempts is 50. -/
def resolveOverlaps (rnd : ℕ → ℚ × ℚ) (ps : List PrizeBox) : List PrizeBox × Bool :=
  resolveLoop rnd 50 0 ps

/-- All unordered pairs of the list are non-overlapping. -/
def pairwiseSeparated (ps : List PrizeBox) : Prop :=
  ∀ i j, i < j → j < ps.length →
    checkOverlap (ps.getD i default) (ps.getD j default) = false

/-! Helper lemmas. -/

/-- processPrizeReward never touches combo. -/
theorem processPrizeReward_combo (t : PrizeType) (draw : ℚ) (s : GameState) :
    (processPrizeReward t draw s).combo = s.combo := by
  cases t <;> simp [processPrizeReward, addPoints, addCoins]

/-- processPrizeReward never touches streak. -/
theorem processPrizeReward_streak (t : PrizeType) (draw : ℚ) (s : GameState) :
    (processPrizeReward t draw s).streak = s.streak := by
  cases t <;> simp [processPrizeReward, addPoints, addCoins]

/-- missedGrab zeroes streak and combo whatever the consolation draw does. -/
theorem missedGrab_zeroes (draw : ℚ) (s : GameState) :
    (missedGrab draw s).streak = 0 ∧ (missedGrab draw s).combo = 0 := by
  unfold missedGrab
  split <;> simp [addPoints]

/-! Claim C3. -/

/-- Claim C3 counterexample: the progression state reached by a single win
at time 0 is a reachable state whose last grab did not fail, and at
current time 6000 the elapsed time since lastWinTime exceeds the combo
timeout window, yet combo is 1, not 0: combo is not zeroed by the mere
passage of time. -/
theorem combo_timeout_counterexample :
    (runTrace initialGameState [GEvent.win 0 PrizeType.yellowCoin 0]).combo = 1 ∧
    comboTimeout <
      6000 - (runTrace initialGameState [GEvent.win 0 PrizeType.yellowCoin 0]).lastWinTime := by
  constructor <;>
    norm_num [runTrace, stepEvent, collectPrize, processPrizeReward, addPoints,
      addCoins, initialGameState, comboTimeout]

/-- Claim C3 (amended): in every reachable progression state whose last
grab failed, combo and streak are both 0 (a miss zeroes both); a win within
the combo timeout window increments combo; a win after the window has
elapsed restarts combo at 1 (not 0); and a win never zeroes the streak.
Combo is not reset merely because the timeout window has elapsed. -/
theorem combo_streak_amended :
    (∀ (s0 : GameState) (tr : List GEvent) (d : ℚ),
      (runTrace s0 (tr ++ [GEvent.miss d])).combo = 0 ∧
      (runTrace s0 (tr ++ [GEvent.miss d])).streak = 0) ∧
    (∀ (s : GameState) (now : ℚ) (t : PrizeType) (d : ℚ),
      comboTimeout ≤ now - s.lastWinTime → (collectPrize now t d s).combo = 1) ∧
    (∀ (s : GameState) (now : ℚ) (t : PrizeType) (d : ℚ),
      now - s.lastWinTime < comboTimeout → (collectPrize now t d s).combo = s.combo + 1) ∧
    (∀ (s : GameState) (now : ℚ) (t : PrizeType) (d : ℚ),
      1 ≤ (collectPrize now t d s).streak) := by
  refine ⟨?_, ?_, ?_, ?_⟩
  · intro s0 tr d
    rw [runTrace, List.foldl_append]
    simp only [List.foldl_cons, List.foldl_nil, stepEvent]
    exact ⟨(missedGrab_zeroes d _).2, (missedGrab_zeroes d _).1⟩
  · intro s now t d h
    have hif : ¬ (now - s.lastWinTime < comboTimeout) := not_lt.mpr h
    simp only [collectPrize, processPrizeReward_combo, if_neg hif]
  · intro s now t d h
    simp only [collectPrize, processPrizeReward_combo, if_pos h]
  · intro s now t d
    simp only [collectPrize, processPrizeReward_streak, maxStreak]
    omega

/-- Claim C3 witness: a win at time 6000 from the initial state (last win
timestamp 0) falls outside the window and restarts combo at 1. -/
theorem combo_streak_amended_witness :
    (collectPrize 6000 PrizeType.yellowCoin 0 initialGameState).combo = 1 :=
  combo_streak_amended.2.1 initialGameState 6000 PrizeType.yellowCoin 0
    (by norm_num [initialGameState, comboTimeout])

/-! Claim C4. -/

/-- Claim C4 counterexample: purpleBall is a generated prize type (ten of
them are placed on the field) but settings.successRates has no entry for
it, so the success-rate computation has no well-defined result at all: in
the source the lookup gives undefined, every arithmetic step gives NaN and
the Math.max/Math.min clamp propagates NaN, so the effective probability is
NaN, which does not lie in [0.3, 0.9]. -/
theorem getSuccessRate_purpleBall_none :
    ¬ ∃ r, getSuccessRate PrizeType.purpleBall initialGameState = some r ∧
      3/10 ≤ r ∧ r ≤ 9/10 := by
  rintro ⟨r, h, -⟩
  simp [getSuccessRate, successRates] at h

/-- Claim C4 (amended): for every prize type that has a configured base
rate (kuromiPlush, yellowCoin, pointToken) and every progression state
(any streak, any coin count), the clamped effective success probability
lies within [0.3, 0.9]; purpleBall has no configured base rate and its
computation yields no number at all. -/
theorem getSuccessRate_clamped (t : PrizeType) (s : GameState) (b : ℚ)
    (h : successRates t = some b) :
    ∃ r, getSuccessRate t s = some r ∧ 3/10 ≤ r ∧ r ≤ 9/10 := by
  refine ⟨max (3/10) (min (9/10)
      (b + min ((s.streak : ℚ) * (2/100)) (1/10) -
        (if s.coins < 2 then (5/100 : ℚ) else 0))),
    ?_, le_max_left _ _, max_le (by norm_num) (min_le_left _ _)⟩
  simp [getSuccessRate, h]

/-- Claim C4 witness: the kuromiPlush rate is configured (0.65) and the
effective probability at the initial state is clamped into [0.3, 0.9]. -/
theorem getSuccessRate_clamped_witness :
    successRates PrizeType.kuromiPlush = some (13/20) ∧
    ∃ r, getSuccessRate PrizeType.kuromiPlush initialGameState = some r ∧
      3/10 ≤ r ∧ r ≤ 9/10 :=
  ⟨rfl, getSuccessRate_clamped PrizeType.kuromiPlush initialGameState (13/20) rfl⟩

/-! Claim C5. -/

/-- Claim C5: a grab issued with zero coins is rejected with a false return
and no state change at all (canPlay already fails, so not even a status
message path with side effects is reached); an accepted grab decrements
coins by exactly one and increments totalPlays by exactly one in the same
update. -/
theorem grab_coin_spend (t0 : ℚ) (o : Option ℕ) (s : SysState) :
    (s.game.coins = 0 → grab t0 o s = (false, s)) ∧
    ((grab t0 o s).1 = true →
      (grab t0 o s).2.game.coins + 1 = s.game.coins ∧
      (grab t0 o s).2.game.totalPlays = s.game.totalPlays + 1) := by
  constructor
  · intro h
    have hcp : canPlay s.game = false := by simp [canPlay, h]
    simp [grab, hcp]
  · intro h
    by_cases hg : (s.claw.isMoving || s.claw.isGrabbing || !canPlay s.game) = true
    · simp [grab, hg] at h
    · have hgf : (s.claw.isMoving || s.claw.isGrabbing || !canPlay s.game) = false := by
        simpa using hg
      simp only [Bool.or_eq_false_iff] at hgf
      obtain ⟨⟨hm, hgr⟩, hnc⟩ := hgf
      have hcp : canPlay s.game = true := by
        revert hnc
        cases canPlay s.game <;> simp
      have hc : s.game.coins ≠ 0 := by
        intro h0
        simp [canPlay, h0] at hcp
      simp [grab, hm, hgr, hcp, spendCoin, hc, setPlaying]
      omega

/-- Claim C5 witness: from the initial state (5 coins, idle) a grab is
accepted and leaves 4 coins and one play on the counter. -/
theorem grab_coin_spend_witness :
    (grab 0 none
        { claw := { position := (50, 50), isMoving := false, isGrabbing := false,
                    grabbedPrize := none },
          game := initialGameState, field := [], pending := [] }).1 = true ∧
    ((grab 0 none
        { claw := { position := (50, 50), isMoving := false, isGrabbing := false,
                    grabbedPrize := none },
          game := initialGameState, field := [], pending := [] }).2.game.coins + 1 = 5 ∧
      (grab 0 none
        { claw := { position := (50, 50), isMoving := false, isGrabbing := false,
                    grabbedPrize := none },
          game := initialGameState, field := [], pending := [] }).2.game.totalPlays = 0 + 1) :=
  ⟨by norm_num [grab, canPlay, spendCoin, setPlaying, initialGameState],
   (grab_coin_spend 0 none _).2
     (by norm_num [grab, canPlay, spendCoin, setPlaying, initialGameState])⟩

/-! Claim C10. -/

/-- Claim C10: the game-loop special-conditions check adds exactly 2 coins
when the player is out of coins while holding a streak of at least 3, and
leaves the state untouched in every other case, so a player with a streak
of at least 3 is never left permanently unable to play. -/
theorem checkSpecialConditions_replenish (s : GameState) :
    (s.coins = 0 → 3 ≤ s.streak →
      (checkSpecialConditions s).coins = s.coins + 2) ∧
    (¬ (s.coins = 0 ∧ 3 ≤ s.streak) → checkSpecialConditions s = s) := by
  constructor
  · intro h1 h2
    simp [checkSpecialConditions, h1, h2, addCoins]
  · intro h
    simp only [checkSpecialConditions, if_neg h]

/-- Claim C10 witness: with zero coins and streak 3 the check grants the
two bonus coins. -/
theorem checkSpecialConditions_replenish_witness :
    (checkSpecialConditions { initialGameState with coins := 0, streak := 3 }).coins
      = 0 + 2 :=
  (checkSpecialConditions_replenish { initialGameState with coins := 0, streak := 3 }).1
    rfl (by norm_num)

/-! Claim C7. -/

/-- The claw position is inside the movement boundary. -/
def inBounds (p : ℚ × ℚ) : Prop :=
  minX ≤ p.1 ∧ p.1 ≤ maxX ∧ minY ≤ p.2 ∧ p.2 ≤ maxY

/-- The clamped one-axis step target computed by move for each direction. -/
def clampedTarget (d : Direction) (p : ℚ × ℚ) : ℚ × ℚ :=
  match d with
  | .left => (max minX (p.1 - moveStep), p.2)
  | .right => (min maxX (p.1 + moveStep), p.2)
  | .forward => (p.1, min maxY (p.2 + moveStep))
  | .back => (p.1, max minY (p.2 - moveStep))

/-- Clamped stepping from inside the boundary stays inside the boundary. -/
theorem clampedTarget_inBounds (d : Direction) (p : ℚ × ℚ) (hb : inBounds p) :
    inBounds (clampedTarget d p) := by
  obtain ⟨h1, h2, h3, h4⟩ := hb
  have hms : (0 : ℚ) ≤ moveStep := by norm_num [moveStep]
  cases d
  · exact ⟨le_max_left _ _, max_le (by norm_num [minX, maxX]) (by linarith), h3, h4⟩
  · exact ⟨le_min (by norm_num [minX, maxX]) (by linarith), min_le_left _ _, h3, h4⟩
  · exact ⟨h1, h2, le_min (by norm_num [minY, maxY]) (by linarith), min_le_left _ _⟩
  · exact ⟨h1, h2, le_max_left _ _, max_le (by norm_num [minY, maxY]) (by linarith)⟩

/-- For a guard that does not reject, move either detects that the clamped
target equals the current position and rejects, or accepts and steps to the
clamped target. -/
theorem move_eq_clampedTarget (d : Direction) (c : ClawState) (g : GameState)
    (hg : ¬ ((c.isMoving || c.isGrabbing || !canPlay g) = true)) :
    move d c g =
      if clampedTarget d c.position = c.position then (false, c, g)
      else (true, { c with isMoving := true, position := clampedTarget d c.position },
            updateClawPosition (clampedTarget d c.position).1
              (clampedTarget d c.position).2 g) := by
  cases d <;> simp only [move, clampedTarget, if_neg hg]

/-- Claim C7: starting from any position inside the movement boundary, the
position after move is still inside the boundary on both axes; whenever
move returns false the position is unchanged (in particular when the
clamped target equals the current position the call is rejected); and an
accepted move steps by moveStep along exactly the one axis of its
direction, clamped to that axis boundary with the other coordinate
untouched, and really changes the position. -/
theorem move_bounds (d : Direction) (c : ClawState) (g : GameState)
    (hb : inBounds c.position) :
    inBounds (move d c g).2.1.position ∧
    ((move d c g).1 = false → (move d c g).2.1.position = c.position) ∧
    ((move d c g).1 = true →
      (move d c g).2.1.position ≠ c.position ∧
      (move d c g).2.1.position = clampedTarget d c.position) := by
  by_cases hg : (c.isMoving || c.isGrabbing || !canPlay g) = true
  · have hm : move d c g = (false, c, g) := by simp only [move, if_pos hg]
    rw [hm]
    exact ⟨hb, fun _ => rfl, fun hh => absurd hh (by simp)⟩
  · rw [move_eq_clampedTarget d c g hg]
    by_cases hnp : clampedTarget d c.position = c.position
    · rw [if_pos hnp]
      exact ⟨hb, fun _ => rfl, fun hh => absurd hh (by simp)⟩
    · rw [if_neg hnp]
      exact ⟨clampedTarget_inBounds d _ hb, fun hh => absurd hh (by simp),
        fun _ => ⟨hnp, rfl⟩⟩

/-- Claim C7 witness: a move right from the home position is accepted,
lands on the clamped target (58, 50) and stays inside the boundary. -/
theorem move_bounds_witness :
    inBounds ((50 : ℚ), (50 : ℚ)) ∧
    inBounds (move Direction.right
      { position := (50, 50), isMoving := false, isGrabbing := false,
        grabbedPrize := none } initialGameState).2.1.position :=
  ⟨by norm_num [inBounds, minX, maxX, minY, maxY],
   (move_bounds Direction.right
      { position := (50, 50), isMoving := false, isGrabbing := false,
        grabbedPrize := none } initialGameState
      (by norm_num [inBounds, minX, maxX, minY, maxY])).1⟩

/-! Claim C8. -/

/-- Claim C8 counterexample: a kuromiPlush prize (size 45) placed with the
legal draw 9/10 on the x axis lands at x = 65.75, outside the claimed
interval [margin, boundary - size - margin] = [5, 50], because the source
subtracts only HALF the size from the range, not the full size. -/
theorem getRandomPosition_counterexample :
    ((0 : ℚ) ≤ 9/10 ∧ (9/10 : ℚ) < 1) ∧
    ¬ ((getRandomPosition ⟨45, 45⟩ (9/10) (9/10)).1 ≤
        fieldRight - fieldLeft - 45 - prizeMargin) := by
  norm_num [getRandomPosition, fieldRight, fieldLeft, fieldTop, fieldBottom, prizeMargin]

/-- Claim C8 (amended): for every size with width below 180 and height
below 140 (all configured prize sizes are 30 to 45) and all draws in
[0,1), the generated position lies within [margin, boundary - size/2 -
margin) on each axis: the x range uses the horizontal boundary span 100
and the y range the vertical span 85, and the source subtracts half the
size rather than the full size. -/
theorem getRandomPosition_amended (w h r1 r2 : ℚ)
    (hw0 : 0 ≤ w) (hw : w < 180) (hh0 : 0 ≤ h) (hh : h < 140)
    (h10 : 0 ≤ r1) (h11 : r1 < 1) (h20 : 0 ≤ r2) (h21 : r2 < 1) :
    prizeMargin ≤ (getRandomPosition ⟨w, h⟩ r1 r2).1 ∧
    (getRandomPosition ⟨w, h⟩ r1 r2).1 < fieldRight - fieldLeft - w/2 - prizeMargin ∧
    prizeMargin ≤ (getRandomPosition ⟨w, h⟩ r1 r2).2 ∧
    (getRandomPosition ⟨w, h⟩ r1 r2).2 < fieldBottom - fieldTop - h/2 - prizeMargin := by
  simp only [getRandomPosition, fieldRight, fieldLeft, fieldTop, fieldBottom, prizeMargin]
  refine ⟨?_, ?_, ?_, ?_⟩
  · nlinarith
  · nlinarith
  · nlinarith
  · nlinarith

/-- Claim C8 witness: a kuromiPlush-sized prize with both draws 1/2 lands
inside the amended bounds. -/
theorem getRandomPosition_amended_witness :
    prizeMargin ≤ (getRandomPosition ⟨45, 45⟩ (1/2) (1/2)).1 ∧
    (getRandomPosition ⟨45, 45⟩ (1/2) (1/2)).1 <
      fieldRight - fieldLeft - 45/2 - prizeMargin ∧
    prizeMargin ≤ (getRandomPosition ⟨45, 45⟩ (1/2) (1/2)).2 ∧
    (getRandomPosition ⟨45, 45⟩ (1/2) (1/2)).2 <
      fieldBottom - fieldTop - 45/2 - prizeMargin :=
  getRandomPosition_amended 45 45 (1/2) (1/2)
    (by norm_num) (by norm_num) (by norm_num) (by norm_num)
    (by norm_num) (by norm_num) (by norm_num) (by norm_num)

/-! Claim C2. -/

/-- A prize at distance 10 from the grab point, inserted first. -/
def prizeA : FieldPrize := { id := 1, pos := (60, 50), grabbed := false, collected := false }

/-- A strictly nearer prize (distance 2), inserted second. -/
def prizeB : FieldPrize := { id := 2, pos := (52, 50), grabbed := false, collected := false }

/-- Claim C2 counterexample: with two uncollected, ungrabbed prizes both
inside the tolerance of a grab at (50, 50), getPrizeAtPosition returns the
FIRST-inserted prize even though the second is strictly nearer: the
candidate is chosen by insertion order, not by distance, and no
ascending-distance ordering is applied. -/
theorem getPrizeAtPosition_not_nearest :
    getPrizeAtPosition 50 50 15 [prizeA, prizeB] = some prizeA ∧
    eligibleAt 50 50 15 prizeB = true ∧
    (prizeB.pos.1 - 50) ^ 2 + (prizeB.pos.2 - 50) ^ 2 <
      (prizeA.pos.1 - 50) ^ 2 + (prizeA.pos.2 - 50) ^ 2 := by
  refine ⟨?_, ?_, ?_⟩ <;>
    norm_num [getPrizeAtPosition, eligibleAt, prizeA, prizeB]

/-- Claim C2 (amended): the grab-resolution candidate returned by
getPrizeAtPosition is the first prize in insertion order of the prize list
that is neither collected nor grabbed and lies within the fixed tolerance
of the grab position: every earlier prize fails the eligibility test, and
distance plays no role beyond the in-range check. When the query returns
nothing, no prize in the list is eligible. -/
theorem getPrizeAtPosition_first_eligible (x y tol : ℚ) (ps : List FieldPrize) :
    (∀ p, getPrizeAtPosition x y tol ps = some p →
      eligibleAt x y tol p = true ∧
      ∃ i, ps.get? i = some p ∧
        ∀ j q, j < i → ps.get? j = some q → eligibleAt x y tol q = false) ∧
    (getPrizeAtPosition x y tol ps = none →
      ∀ p ∈ ps, eligibleAt x y tol p = false) := by
  induction ps with
  | nil =>
      refine ⟨fun p hp => by simp [getPrizeAtPosition] at hp, fun _ p hp => absurd hp (by simp)⟩
  | cons q qs ih =>
      constructor
      · intro p hp
        by_cases he : eligibleAt x y tol q = true
        · rw [getPrizeAtPosition, if_pos he] at hp
          obtain rfl : q = p := by injection hp
          exact ⟨he, 0, rfl, by omega⟩
        · rw [getPrizeAtPosition, if_neg he] at hp
          obtain ⟨hel, i, hi, hfirst⟩ := ih.1 p hp
          refine ⟨hel, i + 1, by simpa using hi, ?_⟩
          intro j r hj hr
          match j, hr with
          | 0, hr =>
              obtain rfl : q = r := by simpa using hr
              simpa using he
          | j' + 1, hr =>
              exact hfirst j' r (by omega) (by simpa using hr)
      · intro hn p hp
        by_cases he : eligibleAt x y tol q = true
        · rw [getPrizeAtPosition, if_pos he] at hn
          exact absurd hn (by simp)
        · rw [getPrizeAtPosition, if_neg he] at hn
          rcases List.mem_cons.mp hp with rfl | hmem
          · simpa using he
          · exact ih.2 hn p hmem

/-- Claim C2 witness: on a one-element list with an eligible prize the
query returns it, it is eligible, and no earlier index exists. -/
theorem getPrizeAtPosition_first_eligible_witness :
    eligibleAt 50 50 15 { id := 3, pos := (50, 50), grabbed := false, collected := false } = true ∧
    ∃ i, [({ id := 3, pos := (50, 50), grabbed := false, collected := false } : FieldPrize)].get? i =
        some { id := 3, pos := (50, 50), grabbed := false, collected := false } ∧
      ∀ j q, j < i →
        [({ id := 3, pos := (50, 50), grabbed := false, collected := false } : FieldPrize)].get? j =
          some q → eligibleAt 50 50 15 q = false :=
  (getPrizeAtPosition_first_eligible 50 50 15 _).1 _
    (by norm_num [getPrizeAtPosition, eligibleAt])

/-! Claim C1. -/

/-- Dropping a prize back to the field only clears its grabbed flag and
repositions it: the collected flags of the whole field are unchanged. -/
theorem dropPrize_map_collected (pos : ℚ × ℚ) (pid : ℕ) (fs : List FieldPrize) :
    (dropPrize pos pid fs).map FieldPrize.collected = fs.map FieldPrize.collected := by
  induction fs with
  | nil => rfl
  | cons p ps ih =>
      simp only [dropPrize, List.map_cons] at ih ⊢
      rw [ih]
      by_cases hp : p.id = pid
      · simp [hp]
      · simp [hp]

/-- Claim C1 (amended): from every machine state, emergencyStop forces the
claw back to Idle (isMoving and isGrabbing cleared, game no longer marked
playing, claw back home), releases any held prize back to the field
without collecting it (all collected flags unchanged) and without awarding
or penalizing (coins, points, streak and combo keep their values); but it
does NOT cancel the pending scheduled callbacks of an interrupted grab
sequence (the source has no clearTimeout): the pending list is untouched,
and a still-pending sequence-completion callback fired after the stop
finds no held prize and records a miss, resetting streak and combo to 0. -/
theorem emergencyStop_amended (s : SysState) (d : ℚ) :
    (emergencyStop s).claw.isMoving = false ∧
    (emergencyStop s).claw.isGrabbing = false ∧
    (emergencyStop s).claw.grabbedPrize = none ∧
    (emergencyStop s).claw.position = homePosition ∧
    (emergencyStop s).game.isPlaying = false ∧
    (emergencyStop s).game.coins = s.game.coins ∧
    (emergencyStop s).game.points = s.game.points ∧
    (emergencyStop s).game.streak = s.game.streak ∧
    (emergencyStop s).game.combo = s.game.combo ∧
    (emergencyStop s).field.map FieldPrize.collected = s.field.map FieldPrize.collected ∧
    (emergencyStop s).pending = s.pending ∧
    (fireCallback d Callback.complete (emergencyStop s)).game.streak = 0 ∧
    (fireCallback d Callback.complete (emergencyStop s)).game.combo = 0 := by
  have hstop : ∀ t : SysState, t.claw.grabbedPrize = none →
      (fireCallback d Callback.complete t).game.streak = 0 ∧
      (fireCallback d Callback.complete t).game.combo = 0 := by
    intro t ht
    simp only [fireCallback, ht]
    exact ⟨(missedGrab_zeroes d _).1, (missedGrab_zeroes d _).2⟩
  cases hgp : s.claw.grabbedPrize with
  | none =>
      have h1 : (emergencyStop s).claw.grabbedPrize = none := by
        simp [emergencyStop, resetToHome, setPlaying, updateClawPosition, hgp]
      refine ⟨?_, ?_, h1, ?_, ?_, ?_, ?_, ?_, ?_, ?_, ?_, (hstop _ h1).1, (hstop _ h1).2⟩ <;>
        simp [emergencyStop, resetToHome, setPlaying, updateClawPosition, hgp]
  | some pid =>
      have h1 : (emergencyStop s).claw.grabbedPrize = none := by
        simp [emergencyStop, resetToHome, setPlaying, updateClawPosition, hgp]
      refine ⟨?_, ?_, h1, ?_, ?_, ?_, ?_, ?_, ?_, ?_, ?_, (hstop _ h1).1, (hstop _ h1).2⟩ <;>
        simp [emergencyStop, resetToHome, setPlaying, updateClawPosition, hgp,
          dropPrize_map_collected]

/-- Claim C1 counterexample: a machine state mid-grab-sequence holding
prize 1 with streak 2 and combo 2, whose sequence-completion callback is
still pending (the phase-5 entry of executeGrabSequence for a grab started
at time 0). After emergencyStop the pending callback list is NOT empty,
and firing the leftover completion callback mutates the progression state:
streak drops from 2 to 0 and combo from 2 to 0, penalizing the player
after the stop. -/
theorem emergencyStop_counterexample :
    (emergencyStop
      { claw := { position := (50, 50), isMoving := false, isGrabbing := true,
                  grabbedPrize := some 1 },
        game := { initialGameState with
                  coins := 4, totalPlays := 1,
                  streak := 2, combo := 2, isPlaying := true },
        field := [{ id := 1, pos := (48, 50), grabbed := true, collected := false }],
        pending := [(2500, Callback.complete)] }).pending = [(2500, Callback.complete)] ∧
    (emergencyStop
      { claw := { position := (50, 50), isMoving := false, isGrabbing := true,
                  grabbedPrize := some 1 },
        game := { initialGameState with
                  coins := 4, totalPlays := 1,
                  streak := 2, combo := 2, isPlaying := true },
        field := [{ id := 1, pos := (48, 50), grabbed := true, collected := false }],
        pending := [(2500, Callback.complete)] }).game.streak = 2 ∧
    (fireCallback (1/2) Callback.complete (emergencyStop
      { claw := { position := (50, 50), isMoving := false, isGrabbing := true,
                  grabbedPrize := some 1 },
        game := { initialGameState with
                  coins := 4, totalPlays := 1,
                  streak := 2, combo := 2, isPlaying := true },
        field := [{ id := 1, pos := (48, 50), grabbed := true, collected := false }],
        pending := [(2500, Callback.complete)] })).game.streak = 0 ∧
    (fireCallback (1/2) Callback.complete (emergencyStop
      { claw := { position := (50, 50), isMoving := false, isGrabbing := true,
                  grabbedPrize := some 1 },
        game := { initialGameState with
                  coins := 4, totalPlays := 1,
                  streak := 2, combo := 2, isPlaying := true },
        field := [{ id := 1, pos := (48, 50), grabbed := true, collected := false }],
        pending := [(2500, Callback.complete)] })).game.combo = 0 := by
  refine ⟨?_, ?_, ?_, ?_⟩ <;>
    norm_num [emergencyStop, resetToHome, setPlaying, updateClawPosition, dropPrize,
      fireCallback, missedGrab, addPoints, initialGameState]

/-! Claim C6. -/

/-- Claim C6 (amended): dropping while a prize is held succeeds, releases
the prize back into play at the current claw position without collecting
it (collected flags unchanged) and without touching the progression state
at all (no points, no win, no miss recorded by drop itself); but drop does
not cancel the pending callbacks of the running grab sequence, and when
the sequence-completion callback later fires it finds no held prize and
records the attempt as a miss, resetting streak and combo to 0. -/
theorem drop_amended (s : SysState) (pid : ℕ) (d : ℚ)
    (h : s.claw.grabbedPrize = some pid) :
    (drop s).1 = true ∧
    (drop s).2.game = s.game ∧
    (drop s).2.claw.grabbedPrize = none ∧
    (drop s).2.pending = s.pending ∧
    (drop s).2.field.map FieldPrize.collected = s.field.map FieldPrize.collected ∧
    (fireCallback d Callback.complete (drop s).2).game.streak = 0 ∧
    (fireCallback d Callback.complete (drop s).2).game.combo = 0 := by
  have hguard : ¬ (s.claw.isGrabbing = false ∧ s.claw.grabbedPrize = none) := by
    rintro ⟨-, hnone⟩
    rw [h] at hnone
    exact Option.some_ne_none pid hnone
  have hdrop : drop s =
      (true, { s with claw := { s.claw with grabbedPrize := none },
                      field := dropPrize s.claw.position pid s.field }) := by
    rw [drop, if_neg hguard, h]
  rw [hdrop]
  refine ⟨rfl, rfl, rfl, rfl, dropPrize_map_collected _ _ _, ?_, ?_⟩ <;>
    simp [fireCallback, setPlaying, missedGrab_zeroes]

/-- Claim C6 witness: a concrete mid-sequence state holding prize 2; the
drop succeeds, progression is untouched by the drop itself, and the
leftover completion callback then zeroes streak and combo. -/
theorem drop_amended_witness :
    (drop
      { claw := { position := (60, 60), isMoving := false, isGrabbing := true,
                  grabbedPrize := some 2 },
        game := { initialGameState with
                  coins := 3, totalPlays := 2,
                  streak := 3, combo := 1, isPlaying := true },
        field := [{ id := 2, pos := (58, 60), grabbed := true, collected := false }],
        pending := [(2500, Callback.complete)] }).1 = true ∧
    (drop
      { claw := { position := (60, 60), isMoving := false, isGrabbing := true,
                  grabbedPrize := some 2 },
        game := { initialGameState with
                  coins := 3, totalPlays := 2,
                  streak := 3, combo := 1, isPlaying := true },
        field := [{ id := 2, pos := (58, 60), grabbed := true, collected := false }],
        pending := [(2500, Callback.complete)] }).2.game =
      { initialGameState with
        coins := 3, totalPlays := 2,
        streak := 3, combo := 1, isPlaying := true } :=
  ⟨(drop_amended _ 2 (1/2) rfl).1, (drop_amended _ 2 (1/2) rfl).2.1⟩

/-- Claim C6 counterexample: in a concrete machine state mid-grab-sequence
holding prize 2 with streak 3, drop itself leaves streak at 3, but the
still-pending completion callback of the interrupted sequence then records
a miss: streak ends at 0 and combo at 0, so the dropped attempt IS counted
as a miss, contradicting the claim that streak and combo are not reset. -/
theorem drop_counterexample :
    (drop
      { claw := { position := (60, 60), isMoving := false, isGrabbing := true,
                  grabbedPrize := some 2 },
        game := { initialGameState with
                  coins := 3, totalPlays := 2,
                  streak := 3, combo := 1, isPlaying := true },
        field := [{ id := 2, pos := (58, 60), grabbed := true, collected := false }],
        pending := [(2500, Callback.complete)] }).2.game.streak = 3 ∧
    (fireCallback (1/2) Callback.complete (drop
      { claw := { position := (60, 60), isMoving := false, isGrabbing := true,
                  grabbedPrize := some 2 },
        game := { initialGameState with
                  coins := 3, totalPlays := 2,
                  streak := 3, combo := 1, isPlaying := true },
        field := [{ id := 2, pos := (58, 60), grabbed := true, collected := false }],
        pending := [(2500, Callback.complete)] }).2).game.streak = 0 ∧
    (fireCallback (1/2) Callback.complete (drop
      { claw := { position := (60, 60), isMoving := false, isGrabbing := true,
                  grabbedPrize := some 2 },
        game := { initialGameState with
                  coins := 3, totalPlays := 2,
                  streak := 3, combo := 1, isPlaying := true },
        field := [{ id := 2, pos := (58, 60), grabbed := true, collected := false }],
        pending := [(2500, Callback.complete)] }).2).game.combo = 0 := by
  refine ⟨?_, ?_, ?_⟩ <;>
    norm_num [drop, dropPrize, fireCallback, setPlaying, missedGrab, addPoints,
      initialGameState]

/-! Claim C9. -/

/-- When a row scan reports no overlap it changed nothing, consumed no
randomness, and every pair (i, j') it visited is non-overlapping. -/
theorem scanRow_no_overlap (rnd : ℕ → ℚ × ℚ) (i : ℕ) :
    ∀ (fuel j k : ℕ) (ps : List PrizeBox),
      (scanRow rnd i fuel j k ps).2.2 = false →
      (scanRow rnd i fuel j k ps).1 = ps ∧
      (scanRow rnd i fuel j k ps).2.1 = k ∧
      ∀ j', j ≤ j' → j' < ps.length → j' < j + fuel →
        checkOverlap (ps.getD i default) (ps.getD j' default) = false := by
  intro fuel
  induction fuel with
  | zero =>
      intro j k ps _
      exact ⟨rfl, rfl, fun j' _ _ h3 => absurd h3 (by omega)⟩
  | succ fuel ih =>
      intro j k ps h
      by_cases hj : j < ps.length
      · by_cases hov : checkOverlap (ps.getD i default) (ps.getD j default) = true
        · exfalso
          have hunf : (scanRow rnd i (fuel + 1) j k ps).2.2 = true := by
            simp only [scanRow]
            rw [if_pos hj, if_pos hov]
          rw [hunf] at h
          exact absurd h (by simp)
        · have hov' : checkOverlap (ps.getD i default) (ps.getD j default) = false := by
            simpa using hov
          have hunf : scanRow rnd i (fuel + 1) j k ps = scanRow rnd i fuel (j + 1) k ps := by
            simp only [scanRow]
            rw [if_pos hj, if_neg hov]
          rw [hunf] at h ⊢
          obtain ⟨h1, h2, h3⟩ := ih (j + 1) k ps h
          refine ⟨h1, h2, ?_⟩
          intro j' hj1 hj2 hj3
          rcases Nat.eq_or_lt_of_le hj1 with rfl | hlt
          · exact hov'
          · exact h3 j' hlt hj2 (by omega)
      · have hunf : scanRow rnd i (fuel + 1) j k ps = (ps, k, false) := by
          simp only [scanRow]
          rw [if_neg hj]
        rw [hunf]
        exact ⟨rfl, rfl, fun j' _ h2 _ => absurd h2 (by omega)⟩

/-- When a full pass reports no overlap it changed nothing and every
unordered pair in the scanned range is non-overlapping. -/
theorem scanAll_no_overlap (rnd : ℕ → ℚ × ℚ) :
    ∀ (fuel i k : ℕ) (ps : List PrizeBox),
      (scanAll rnd fuel i k ps).2.2 = false →
      (scanAll rnd fuel i k ps).1 = ps ∧
      ∀ i' j', i ≤ i' → i' < i + fuel → i' < j' → j' < ps.length →
        checkOverlap (ps.getD i' default) (ps.getD j' default) = false := by
  intro fuel
  induction fuel with
  | zero =>
      intro i k ps _
      exact ⟨rfl, fun i' j' _ h2 _ _ => absurd h2 (by omega)⟩
  | succ fuel ih =>
      intro i k ps h
      by_cases hi : i < ps.length
      · rcases hr : scanRow rnd i ps.length (i + 1) k ps with ⟨ps1, k1, b1⟩
        rcases hr2 : scanAll rnd fuel (i + 1) k1 ps1 with ⟨ps2, k2, b2⟩
        have hunf : scanAll rnd (fuel + 1) i k ps = (ps2, k2, b1 || b2) := by
          simp [scanAll, hi, hr, hr2]
        rw [hunf] at h ⊢
        have h' : (b1 || b2) = false := h
        obtain ⟨hb1, hb2⟩ := Bool.or_eq_false_iff.mp h'
        have hrow := scanRow_no_overlap rnd i ps.length (i + 1) k ps
          (by rw [hr]; exact hb1)
        obtain ⟨hps1, hk1, hrowpairs⟩ := hrow
        rw [hr] at hps1 hk1
        have hps1' : ps1 = ps := hps1
        have hk1' : k1 = k := hk1
        rw [hps1', hk1'] at hr2
        have htail := ih (i + 1) k ps (by rw [hr2]; exact hb2)
        obtain ⟨hps2, htailpairs⟩ := htail
        rw [hr2] at hps2
        have hps2' : ps2 = ps := hps2
        refine ⟨hps2', ?_⟩
        intro i' j' hii hif hij hjl
        rcases Nat.eq_or_lt_of_le hii with rfl | hlt
        · exact hrowpairs j' (by omega) hjl (by omega)
        · exact htailpairs i' j' (by omega) (by omega) hij hjl
      · have hunf : scanAll rnd (fuel + 1) i k ps = (ps, k, false) := by
          simp [scanAll, hi]
        rw [hunf]
        exact ⟨rfl, fun i' j' hii _ hij hjl => absurd hjl (by omega)⟩

/-- The bounded while loop either exhausts its budget or ends with a
pairwise separated configuration. -/
theorem resolveLoop_ok (rnd : ℕ → ℚ × ℚ) :
    ∀ (fuel k : ℕ) (ps : List PrizeBox),
      (resolveLoop rnd fuel k ps).2 = true ∨
        pairwiseSeparated (resolveLoop rnd fuel k ps).1 := by
  intro fuel
  induction fuel with
  | zero => intro k ps; exact Or.inl rfl
  | succ fuel ih =>
      intro k ps
      rcases hr : scanAll rnd ps.length 0 k ps with ⟨ps1, k1, b1⟩
      cases b1 with
      | true =>
          have hunf : resolveLoop rnd (fuel + 1) k ps = resolveLoop rnd fuel k1 ps1 := by
            simp [resolveLoop, hr]
          rw [hunf]
          exact ih k1 ps1
      | false =>
          have hunf : resolveLoop rnd (fuel + 1) k ps = (ps1, false) := by
            simp [resolveLoop, hr]
          rw [hunf]
          right
          have hall := scanAll_no_overlap rnd ps.length 0 k ps (by rw [hr])
          obtain ⟨hps, hpairs⟩ := hall
          rw [hr] at hps
          have hps' : ps1 = ps := hps
          rw [hps']
          show pairwiseSeparated ps
          intro i j hij hj
          exact hpairs i j (Nat.zero_le _) (by omega) hij hj

/-- Claim C9: for every random stream and every prize list, after
resolveOverlaps returns either the 50-pass attempt budget was exhausted
(the escape hatch) or every unordered pair of the resulting configuration
satisfies the separation test (center distance at least combinedHalfWidths
plus buffer on at least one axis); and the loop terminates immediately,
returning the input unchanged, as soon as a full pass over all pairs finds
no overlap. -/
theorem resolveOverlaps_spec (rnd : ℕ → ℚ × ℚ) (ps : List PrizeBox) :
    ((resolveOverlaps rnd ps).2 = true ∨ pairwiseSeparated (resolveOverlaps rnd ps).1) ∧
    ((scanAll rnd ps.length 0 0 ps).2.2 = false → resolveOverlaps rnd ps = (ps, false)) := by
  constructor
  · exact resolveLoop_ok rnd 50 0 ps
  · intro h
    have hall := scanAll_no_overlap rnd ps.length 0 0 ps h
    obtain ⟨hps, -⟩ := hall
    show resolveLoop rnd 50 0 ps = (ps, false)
    have hunf : resolveLoop rnd 50 0 ps =
        (if (scanAll rnd ps.length 0 0 ps).2.2 = true then
           resolveLoop rnd 49 (scanAll rnd ps.length 0 0 ps).2.1
             (scanAll rnd ps.length 0 0 ps).1
         else ((scanAll rnd ps.length 0 0 ps).1, false)) := by
      show resolveLoop rnd (49 + 1) 0 ps = _
      simp only [resolveLoop]
    rw [hunf, if_neg (by rw [h]; exact Bool.false_ne_true), hps]

/-- Claim C9 witness: on the empty prize list the first pass finds no
overlap and resolveOverlaps returns the input unchanged without exhausting
the budget. -/
theorem resolveOverlaps_spec_witness :
    resolveOverlaps (fun _ => ((0 : ℚ), (0 : ℚ))) [] = ([], false) :=
  (resolveOverlaps_spec (fun _ => ((0 : ℚ), (0 : ℚ))) []).2 rfl

end Kuromi
